import Mathlib

/-!
Shallow embedding of `src/social_media_chatbot.py` (Social-Media AI
Influencer).  Python strings are Lean `String`s, dicts with known shape are
structures, the LLM client is an oracle `List Msg → Except String String`
(`Except.error` models a raised exception on `invoke`), and the best-effort
JSON extraction (`re.search` of the first brace-delimited span followed by
`json.loads`) is an oracle `String → Option _` — `none` covers both the
no-span case and the parse-failure case, which the source routes to the same
fallback dict.
-/

/-- Python `str.lower()` (ASCII-faithful), computed on the character list so
that it reduces in the kernel. -/
def pyLower (s : String) : String :=
  ⟨s.data.map Char.toLower⟩

/-- Python `str.strip()`: drop leading and trailing whitespace. -/
def pyStrip (s : String) : String :=
  ⟨((s.data.dropWhile Char.isWhitespace).reverse.dropWhile Char.isWhitespace).reverse⟩

/-- Python `str.endswith(post)`. -/
def pyEndsWith (s post : String) : Bool :=
  post.data.isSuffixOf s.data

/-- Helper for `pySplit`: cut a character list at every whitespace
character. -/
def splitWsAux : List Char → List Char → List (List Char)
  | [], acc => [acc.reverse]
  | c :: cs, acc =>
    if c.isWhitespace then acc.reverse :: splitWsAux cs []
    else splitWsAux cs (c :: acc)

/-- Python `str.split()` with no separator: split on whitespace runs and
drop empty pieces. -/
def pySplit (s : String) : List String :=
  ((splitWsAux s.data []).map (fun piece => (⟨piece⟩ : String))).filter
    (fun w => w ≠ "")

/-- Helper for `pyTitle`: the Boolean records whether the previous character
was alphabetic. -/
def pyTitleAux : Bool → List Char → List Char
  | _, [] => []
  | prevAlpha, c :: cs =>
    if c.isAlpha then
      (if prevAlpha then c.toLower else c.toUpper) :: pyTitleAux true cs
    else
      c :: pyTitleAux false cs

/-- Python `str.title()`: uppercase each alphabetic character that follows a
non-alphabetic one, lowercase the rest (ASCII-faithful). -/
def pyTitle (s : String) : String :=
  ⟨pyTitleAux false s.data⟩

/-- Python `response.content.split('\n')[0]`: the text before the first
newline (the whole string when there is none). -/
def firstLine (s : String) : String :=
  ⟨s.data.takeWhile (fun c => c ≠ '\n')⟩

/-- Python string slice `s[:n]`. -/
def strTake (s : String) (n : Nat) : String :=
  ⟨s.data.take n⟩

/-- Python substring test `q in s` on the underlying character lists. -/
def isSubstring (q : List Char) : List Char → Bool
  | [] => q.isEmpty
  | c :: rest => q.isPrefixOf (c :: rest) || isSubstring q rest

/-- A role-tagged message passed to `llm.invoke` (`SystemMessage` /
`HumanMessage`). -/
structure Msg where
  role : String
  content : String
deriving Repr, DecidableEq

/-- The LLM client: `invoke` either returns a response content string or
raises (modelled by `Except.error` carrying the exception message). -/
abbrev LLMInvoke := List Msg → Except String String

/-- The dict produced by `TopicGenerator.generate_topic` (keys title, hook,
angle, engagement_question). -/
structure TopicData where
  title : String
  hook : String
  angle : String
  engagement_question : String
deriving Repr, DecidableEq, Inhabited

/-- The prompt f-string built in `TopicGenerator.generate_topic`
(src lines 116-133), indentation included. -/
def topicPrompt (niche audience tone : String) : String :=
  "\n            Generate a compelling social media post topic for:\n            Niche: "
    ++ niche
    ++ "\n            Audience: " ++ audience
    ++ "\n            Tone: " ++ tone
    ++ "\n            \n            Please provide:\n            1. An attention-grabbing title\n            2. A hook that draws readers in\n            3. A unique angle or perspective\n            4. An engagement question\n            \n            Format as JSON with these exact keys:\n            - title\n            - hook\n            - angle\n            - engagement_question\n            "

/-- The message list handed to `llm.invoke` by the topic generator
(src lines 135-138). -/
def topicMessages (niche audience tone : String) : List Msg :=
  [⟨"system", "You are an expert social media content strategist."⟩,
   ⟨"human", topicPrompt niche audience tone⟩]

/-- `TopicGenerator.generate_topic` (src lines 113-173).  `parseJson`
models the regex extraction of the first brace span plus `json.loads`;
`none` covers the no-match branch and the loads-failure branch, whose
fallback dicts in the source are identical.  `Except.error` on `invoke`
models the outer `except Exception` branch (src lines 166-173). -/
def generate_topic (invoke : LLMInvoke) (parseJson : String → Option TopicData)
    (niche audience tone : String) : TopicData :=
  match invoke (topicMessages niche audience tone) with
  | Except.error _ =>
    { title := "Latest " ++ pyTitle niche ++ " Insights"
      hook := "Discover game-changing strategies"
      angle := "Expert perspective"
      engagement_question := "What are your thoughts?" }
  | Except.ok content =>
    match parseJson content with
    | some topic_data => topic_data
    | none =>
      { title := firstLine content
        hook := "Ready to transform your approach?"
        angle := "Expert insights and practical tips"
        engagement_question := "What's your experience with this?" }

/-- The dict produced by `ContentGenerator.generate_content` (keys content,
platform, character_count, within_limit). -/
structure ContentData where
  content : String
  platform : String
  character_count : Nat
  within_limit : Bool
deriving Repr, DecidableEq, Inhabited

/-- `ContentGenerator.platform_limits` plus the `.get(platform, 2200)`
default (src lines 180-185, 190). -/
def contentPlatformLimit (platform : String) : Nat :=
  ((([("instagram", 2200), ("linkedin", 3000), ("twitter", 280),
      ("facebook", 63206)] : List (String × Nat)).lookup platform).getD 2200)

/-- The prompt f-string built in `ContentGenerator.generate_content`
(src lines 192-206). -/
def contentPrompt (topic_data : TopicData) (platform : String)
    (char_limit : Nat) : String :=
  "\n            Create a " ++ platform
    ++ " post about:\n            Title: " ++ topic_data.title
    ++ "\n            Hook: " ++ topic_data.hook
    ++ "\n            Angle: " ++ topic_data.angle
    ++ "\n            \n            Requirements:\n            1. Start with the hook\n            2. Stay under "
    ++ toString char_limit
    ++ " characters\n            3. Match " ++ platform
    ++ "'s style\n            4. Include a call-to-action\n            5. End with "
    ++ topic_data.engagement_question
    ++ "\n            \n            Make it engaging and valuable!\n            "

/-- The message list handed to `llm.invoke` by the content generator
(src lines 208-211). -/
def contentMessages (topic_data : TopicData) (platform : String) : List Msg :=
  [⟨"system", "You are an expert " ++ platform ++ " content creator."⟩,
   ⟨"human", contentPrompt topic_data platform
      (contentPlatformLimit (pyLower platform))⟩]

/-- `ContentGenerator.generate_content` (src lines 187-230).  On success the
response is trimmed and measured post hoc; on a raised call the fallback
dict reports `character_count = 0` and `within_limit = True`. -/
def generate_content (invoke : LLMInvoke) (topic_data : TopicData)
    (platform : String) : ContentData :=
  let char_limit := contentPlatformLimit (pyLower platform)
  match invoke (contentMessages topic_data platform) with
  | Except.ok respContent =>
    let content := pyStrip respContent
    { content := content
      platform := platform
      character_count := content.length
      within_limit := decide (content.length ≤ char_limit) }
  | Except.error _ =>
    { content := topic_data.hook ++ "\n\nStay tuned for more insights on "
        ++ topic_data.title ++ "!\n\n" ++ topic_data.engagement_question
      platform := platform
      character_count := 0
      within_limit := true }

/-- The dict produced by `HashtagGenerator.generate_hashtags` (keys
primary_hashtags, alternative_hashtags, strategy, reach_prediction,
total_primary). -/
structure HashtagData where
  primary_hashtags : List String
  alternative_hashtags : List String
  strategy : String
  reach_prediction : String
  total_primary : Nat
deriving Repr, DecidableEq, Inhabited

/-- `HashtagGenerator.platform_limits` plus the `.get(platform, 30)` default
(src lines 237-242, 249, 311). -/
def hashtagPlatformLimit (platform : String) : Nat :=
  ((([("instagram", 30), ("linkedin", 10), ("twitter", 5),
      ("facebook", 8)] : List (String × Nat)).lookup platform).getD 30)

/-- `HashtagGenerator._generate_fallback_hashtags` (src lines 305-316):
derive tags from title words longer than 3 characters; note that
`primary_hashtags` is truncated to the platform limit while `total_primary`
is the length of the untruncated list. -/
def generate_fallback_hashtags (platform : String)
    (topic_data : TopicData) : HashtagData :=
  let title_words := pySplit (pyLower topic_data.title)
  let basic_hashtags :=
    (title_words.filter (fun word => word.length > 3)).map (fun word => "#" ++ word)
  { primary_hashtags := basic_hashtags.take (hashtagPlatformLimit (pyLower platform))
    alternative_hashtags := ["#" ++ platform, "#content", "#socialmedia"]
    strategy := "Using basic keyword-based hashtags"
    reach_prediction := "Moderate reach expected"
    total_primary := basic_hashtags.length }

/-- The `seo_context` f-string (src line 251): Python truthiness of the
optional keyword list (None or the empty list are falsy). -/
def seoContext (seo_keywords : Option (List String)) : String :=
  match seo_keywords with
  | some (k :: ks) => "SEO Keywords: " ++ String.intercalate ", " (k :: ks)
  | _ => "Use relevant industry keywords"

/-- The prompt f-string built in `HashtagGenerator.generate_hashtags`
(src lines 253-275). -/
def hashtagPrompt (platform : String) (topic_data : TopicData)
    (content_data : ContentData) (limit : Nat) (seo_context : String) : String :=
  "\n            Generate hashtags for a " ++ platform
    ++ " post about:\n            Title: " ++ topic_data.title
    ++ "\n            Content: " ++ strTake content_data.content 200
    ++ "...\n            \n            Requirements:\n            1. Max "
    ++ toString limit
    ++ " hashtags\n            2. Mix of popular and niche tags\n            3. "
    ++ seo_context
    ++ "\n            4. Include industry-specific tags\n            \n            Provide:\n            1. Primary hashtags (most relevant)\n            2. Alternative hashtags (for testing)\n            3. Hashtag strategy explanation\n            4. Estimated reach prediction\n            \n            Format as JSON with these exact keys:\n            - primary_hashtags (list)\n            - alternative_hashtags (list)\n            - strategy\n            - reach_prediction\n            "

/-- The message list handed to `llm.invoke` by the hashtag generator
(src lines 277-280). -/
def hashtagMessages (topic_data : TopicData) (content_data : ContentData)
    (seo_keywords : Option (List String)) : List Msg :=
  [⟨"system", "You are an expert social media hashtag strategist."⟩,
   ⟨"human", hashtagPrompt content_data.platform topic_data content_data
      (hashtagPlatformLimit (pyLower content_data.platform))
      (seoContext seo_keywords)⟩]

/-- `HashtagGenerator.generate_hashtags` (src lines 244-303).  On a
successful call, the parsed dict (or, when parsing fails, the fallback dict)
is post-processed at src lines 296-297: `primary_hashtags` is truncated to
the platform limit and `total_primary` recomputed as its length.  When the
call raises, the `except` branch (src lines 301-303) returns the fallback
dict without that post-processing. -/
def generate_hashtags (invoke : LLMInvoke)
    (parseJson : String → Option HashtagData) (topic_data : TopicData)
    (content_data : ContentData) (seo_keywords : Option (List String)) :
    HashtagData :=
  let platform := content_data.platform
  let limit := hashtagPlatformLimit (pyLower platform)
  match invoke (hashtagMessages topic_data content_data seo_keywords) with
  | Except.error _ => generate_fallback_hashtags platform topic_data
  | Except.ok respContent =>
    let hashtag_data :=
      match parseJson respContent with
      | some hd => hd
      | none => generate_fallback_hashtags platform topic_data
    let primary := hashtag_data.primary_hashtags.take limit
    { hashtag_data with
        primary_hashtags := primary
        total_primary := primary.length }

/-- One value of `PostMemory.posts_memory`: the projection of a post stored
in the in-memory index (src lines 49-57 and 65-73). -/
structure IndexEntry where
  platform : String
  niche : String
  title : String
  content : String
  hashtags : List String
  timestamp : String
  file_path : String
deriving Repr, DecidableEq, Inhabited

/-- Python dict assignment `d[k] = v` on an insertion-ordered association
list: an existing key keeps its position, a new key is appended. -/
def dictInsert (k : String) (v : IndexEntry) :
    List (String × IndexEntry) → List (String × IndexEntry)
  | [] => [(k, v)]
  | (k', v') :: rest =>
    if k' = k then (k, v) :: rest else (k', v') :: dictInsert k v rest

/-- The `parameters` sub-dict of a complete post (src lines 430-436). -/
structure PostParameters where
  niche : String
  audience : String
  tone : String
  platform : String
  seo_keywords : Option (List String)
deriving Repr, DecidableEq, Inhabited

/-- The complete-post dict assembled by
`AIInfluencerChatbot.generate_complete_post` (src lines 427-441); also the
structured (JSON) file form, since `json.dump` followed by `json.load`
round-trips this dict unchanged. -/
structure CompletePost where
  post_id : String
  generation_timestamp : String
  parameters : PostParameters
  topic : TopicData
  content : ContentData
  hashtags : HashtagData
  ready_to_post : Bool
deriving Repr, DecidableEq, Inhabited

/-- The index entry built by `PostMemory.add_post` (src lines 65-73); note
the `file_path` is computed as `posts/{post_id}.json`, not taken from the
file actually written by `_save_post`. -/
def addProjection (post_data : CompletePost) : IndexEntry :=
  { platform := post_data.parameters.platform
    niche := post_data.parameters.niche
    title := post_data.topic.title
    content := post_data.content.content
    hashtags := post_data.hashtags.primary_hashtags
    timestamp := post_data.generation_timestamp
    file_path := "posts/" ++ post_data.post_id ++ ".json" }

/-- `PostMemory.add_post` (src lines 61-73): the entry is stored only when
`post_data.get('post_id')` is truthy (a non-empty string). -/
def add_post (post_data : CompletePost) (posts_memory : List (String × IndexEntry)) :
    List (String × IndexEntry) :=
  if post_data.post_id ≠ "" then
    dictInsert post_data.post_id (addProjection post_data) posts_memory
  else posts_memory

/-- The index entry built from one parsed post file inside
`PostMemory.load_posts` (src lines 49-57); `file_path` is the path of the
file the record was read from. -/
def loadProjection (post_data : CompletePost) (file_path : String) : IndexEntry :=
  { platform := post_data.parameters.platform
    niche := post_data.parameters.niche
    title := post_data.topic.title
    content := post_data.content.content
    hashtags := post_data.hashtags.primary_hashtags
    timestamp := post_data.generation_timestamp
    file_path := file_path }

/-- The per-file body of the `load_posts` loop (src lines 47-57): a parsed
record contributes an entry only when its `post_id` is truthy. -/
def load_entry (post_data : CompletePost) (file_path : String) :
    Option (String × IndexEntry) :=
  if post_data.post_id ≠ "" then
    some (post_data.post_id, loadProjection post_data file_path)
  else none

/-- `PostMemory.load_posts` (src lines 36-59) over given directory contents:
`filenames` lists the directory (in listing order) and `parseFile` models
opening a file and `json.load`-ing it, `none` meaning the read or parse
raised (the source prints a warning and continues with the next file). -/
def load_posts (filenames : List String)
    (parseFile : String → Option CompletePost) : List (String × IndexEntry) :=
  filenames.foldl
    (fun posts_memory filename =>
      if pyEndsWith filename ".json" then
        match parseFile filename with
        | none => posts_memory
        | some post_data =>
          match load_entry post_data ("posts/" ++ filename) with
          | some (post_id, entry) => dictInsert post_id entry posts_memory
          | none => posts_memory
      else posts_memory)
    []

/-- The match condition of `PostMemory.search_posts` (src lines 101-103),
applied to an already lower-cased query. -/
def entryMatches (query : String) (post : IndexEntry) : Bool :=
  isSubstring query.data (pyLower post.title).data ||
  isSubstring query.data (pyLower post.content).data ||
  post.hashtags.any (fun tag => isSubstring query.data (pyLower tag).data)

/-- `PostMemory.search_posts` (src lines 96-105): lower-case the query, then
append each matching entry to the result list in index order. -/
def search_posts (query : String) (posts : List IndexEntry) : List IndexEntry :=
  let q := pyLower query
  posts.foldl
    (fun matching_posts post =>
      if entryMatches q post then matching_posts ++ [post] else matching_posts)
    []

/-- Python string comparison `a < b` is lexicographic on code points; this
is the executable comparison on the underlying character lists. -/
def charListLtB : List Char → List Char → Bool
  | [], [] => false
  | [], _ :: _ => true
  | _ :: _, [] => false
  | c :: cs, d :: ds =>
    if c.toNat < d.toNat then true
    else if d.toNat < c.toNat then false
    else charListLtB cs ds

/-- Python `a < b` on strings. -/
def pyStrLt (a b : String) : Bool :=
  charListLtB a.data b.data

/-- The descending-timestamp comparison used to model
`sorted(..., key=lambda x: x['timestamp'], reverse=True)`: `a` may stay
before `b` exactly when `a`'s timestamp is not smaller. -/
def tsGe (a b : IndexEntry) : Prop :=
  pyStrLt a.timestamp b.timestamp = false

instance : DecidableRel tsGe :=
  fun _ _ => inferInstanceAs (Decidable (_ = false))

/-- Python `sorted` is the unique stable sort; insertion sort with `tsGe`
(insert each element before the first strictly-smaller-timestamp element,
after all earlier elements with greater-or-equal timestamps) realises the
same stable descending order. -/
def sortByTimestampDesc (posts : List IndexEntry) : List IndexEntry :=
  List.insertionSort tsGe posts

/-- `PostMemory.get_recent_posts` (src lines 87-94): stable-sort the values
by timestamp descending and keep the first `limit`. -/
def get_recent_posts (limit : Nat) (posts : List IndexEntry) : List IndexEntry :=
  (sortByTimestampDesc posts).take limit

/-- The result of `AIInfluencerChatbot.generate_complete_post`: either the
complete-post dict or the error dict built in the `except` branch
(src lines 459-463). -/
inductive PostResult where
  | ok (post : CompletePost)
  | err (error : String) (generation_timestamp : String)
deriving Repr, DecidableEq, Inhabited

/-- The `ready_to_post` key of either result shape. -/
def PostResult.ready_to_post : PostResult → Bool
  | .ok post => post.ready_to_post
  | .err _ _ => false

/-- The `post` carried by a successful result (`default` on the error
shape, used only to state theorems about results proved successful). -/
def PostResult.getPost : PostResult → CompletePost
  | .ok post => post
  | .err _ _ => default

/-- Wall-clock readings taken during one `generate_complete_post` call:
`datetime.now().strftime('%Y%m%d_%H%M%S')` for the post id,
`datetime.now().isoformat()` for timestamps, and
`datetime.now().strftime('%y%m%d_%H%M')` taken again inside `_save_post`
for the file-name stem.  The clock is external input to the model. -/
structure Clock where
  compact : String
  iso : String
  fileStamp : String
deriving Repr, DecidableEq, Inhabited

/-- The file paths written by `AIInfluencerChatbot._save_post`
(src lines 465-486): stem `{platform}_{niche}_{yymmdd_HHMM}`, one `.json`
and one `.txt` file under `posts/`. -/
def savePostPaths (post_data : CompletePost) (fileStamp : String) : List String :=
  let platform := post_data.parameters.platform
  let niche := post_data.parameters.niche
  let base_filename := platform ++ "_" ++ niche ++ "_" ++ fileStamp
  ["posts/" ++ base_filename ++ ".json", "posts/" ++ base_filename ++ ".txt"]

/-- `AIInfluencerChatbot.generate_complete_post` (src lines 403-463).  The
three generators absorb their own failures (they catch internally), so the
top-level `except` branch is reached only by the orchestrator-level side
effects after assembly (`os.makedirs` in `_save_post`, the memory updates):
these are modelled by the single `sideEffects : Except String Unit`
argument.  When one of them raises, the error dict
`{error, ready_to_post: False, generation_timestamp}` is returned instead
of propagating. -/
def generate_complete_post (invoke : LLMInvoke)
    (parseTopic : String → Option TopicData)
    (parseHashtags : String → Option HashtagData) (clock : Clock)
    (sideEffects : Except String Unit) (niche audience tone platform : String)
    (seo_keywords : Option (List String)) : PostResult :=
  let topic_data := generate_topic invoke parseTopic niche audience tone
  let content_data := generate_content invoke topic_data platform
  let hashtag_data := generate_hashtags invoke parseHashtags topic_data
    content_data seo_keywords
  let complete_post : CompletePost :=
    { post_id := "ai_influencer_" ++ clock.compact
      generation_timestamp := clock.iso
      parameters :=
        { niche := niche, audience := audience, tone := tone,
          platform := platform, seo_keywords := seo_keywords }
      topic := topic_data
      content := content_data
      hashtags := hashtag_data
      ready_to_post := true }
  match sideEffects with
  | Except.error e => PostResult.err e clock.iso
  | Except.ok _ => PostResult.ok complete_post

/-- The entry fields compared by the round-trip claim: everything except
`file_path`. -/
def IndexEntry.core (e : IndexEntry) :
    String × String × String × String × List String × String :=
  (e.platform, e.niche, e.title, e.content, e.hashtags, e.timestamp)

/-- A sample persisted post record used when instantiating store theorems at
concrete inputs. -/
def samplePost : CompletePost :=
  { post_id := "ai_influencer_20250101_093000"
    generation_timestamp := "2025-01-01T09:30:00"
    parameters :=
      { niche := "technology", audience := "professionals",
        tone := "engaging", platform := "instagram", seo_keywords := none }
    topic :=
      { title := "Latest Technology Insights"
        hook := "Discover game-changing strategies"
        angle := "Expert perspective"
        engagement_question := "What are your thoughts?" }
    content :=
      { content := "Some body", platform := "instagram",
        character_count := 9, within_limit := true }
    hashtags :=
      { primary_hashtags := ["#latest", "#technology", "#insights"]
        alternative_hashtags := ["#instagram", "#content", "#socialmedia"]
        strategy := "Using basic keyword-based hashtags"
        reach_prediction := "Moderate reach expected"
        total_primary := 3 }
    ready_to_post := true }

/-- A parsed record whose JSON carried no `post_id` key (`post_data.get`
returns a falsy value, modelled by the empty string). -/
def noIdPost : CompletePost :=
  { samplePost with post_id := "" }

/-- A directory parse oracle with one good file; every other file fails to
read or parse. -/
def sampleParse : String → Option CompletePost :=
  fun filename => if filename = "good.json" then some samplePost else none

theorem charLt_iff_toNat (c d : Char) : c < d ↔ c.toNat < d.toNat :=
  Iff.rfl

theorem char_eq_of_toNat_eq {c d : Char} (h : c.toNat = d.toNat) : c = d := by
  apply Char.ext
  exact UInt32.toNat.inj h

theorem charListLtB_iff_lex :
    ∀ l1 l2 : List Char, charListLtB l1 l2 = true ↔ List.Lex (· < ·) l1 l2 := by
  intro l1
  induction l1 with
  | nil =>
    intro l2
    cases l2 with
    | nil =>
      simp only [charListLtB, Bool.false_eq_true, false_iff]
      exact List.Lex.not_nil_right _ _
    | cons d ds => simp only [charListLtB, true_iff]; exact List.Lex.nil
  | cons c cs ih =>
    intro l2
    cases l2 with
    | nil =>
      simp only [charListLtB, Bool.false_eq_true, false_iff]
      exact List.Lex.not_nil_right _ _
    | cons d ds =>
      simp only [charListLtB]
      by_cases h1 : c.toNat < d.toNat
      · simp only [h1, if_true, true_iff]
        exact List.Lex.rel ((charLt_iff_toNat c d).mpr h1)
      · by_cases h2 : d.toNat < c.toNat
        · simp only [h1, h2, if_true, if_false, Bool.false_eq_true, false_iff]
          intro hlex
          cases hlex with
          | cons h => omega
          | rel h => exact h1 ((charLt_iff_toNat c d).mp h)
        · have hcd : c = d := char_eq_of_toNat_eq (by omega)
          subst hcd
          simp only [h1, h2, if_false, ih ds]
          exact (List.Lex.cons_iff).symm

theorem pyStrLt_iff (a b : String) : pyStrLt a b = true ↔ a < b := by
  rw [pyStrLt, charListLtB_iff_lex, String.lt_iff_toList_lt]
  exact Iff.rfl

theorem tsGe_iff (a b : IndexEntry) : tsGe a b ↔ b.timestamp ≤ a.timestamp := by
  rw [tsGe, ← Bool.not_eq_true, pyStrLt_iff]
  exact not_lt

theorem sorted_sortByTimestampDesc (posts : List IndexEntry) :
    List.Sorted tsGe (sortByTimestampDesc posts) := by
  haveI : IsTotal IndexEntry tsGe :=
    ⟨fun a b => by rw [tsGe_iff, tsGe_iff]; exact le_total _ _⟩
  haveI : IsTrans IndexEntry tsGe :=
    ⟨fun a b c hab hbc => by
      rw [tsGe_iff] at hab hbc ⊢
      exact le_trans hbc hab⟩
  exact List.sorted_insertionSort tsGe posts

theorem filter_orderedInsert_ts (t : String) (x : IndexEntry) :
    ∀ L : List IndexEntry,
      (List.orderedInsert tsGe x L).filter (fun e => e.timestamp == t)
        = if x.timestamp == t
          then x :: L.filter (fun e => e.timestamp == t)
          else L.filter (fun e => e.timestamp == t) := by
  intro L
  induction L with
  | nil =>
    by_cases hx : x.timestamp == t <;>
      simp [List.orderedInsert, List.filter_cons, hx]
  | cons y ys ih =>
    rw [List.orderedInsert]
    by_cases hr : tsGe x y
    · rw [if_pos hr]
      by_cases hx : x.timestamp == t <;>
        simp [List.filter_cons, hx]
    · rw [if_neg hr]
      have hlt : x.timestamp < y.timestamp := by
        rw [tsGe_iff] at hr
        exact not_le.mp hr
      by_cases hy : y.timestamp == t
      · have hyt : y.timestamp = t := by simpa using hy
        by_cases hx : x.timestamp == t
        · have hxt : x.timestamp = t := by simpa using hx
          rw [hxt, hyt] at hlt
          exact absurd hlt (lt_irrefl t)
        · simp [List.filter_cons, hy, hx, ih]
      · simp [List.filter_cons, hy, ih]

theorem filter_sortByTimestampDesc (t : String) :
    ∀ posts : List IndexEntry,
      (sortByTimestampDesc posts).filter (fun e => e.timestamp == t)
        = posts.filter (fun e => e.timestamp == t) := by
  intro posts
  induction posts with
  | nil => rfl
  | cons p ps ih =>
    show (List.orderedInsert tsGe p (sortByTimestampDesc ps)).filter _ = _
    rw [filter_orderedInsert_ts]
    by_cases hp : p.timestamp == t <;> simp [hp, ih, List.filter_cons]

theorem foldl_append_filter (f : IndexEntry → Bool) :
    ∀ (l acc : List IndexEntry),
      l.foldl (fun acc2 p => if f p then acc2 ++ [p] else acc2) acc
        = acc ++ l.filter f := by
  intro l
  induction l with
  | nil => intro acc; simp
  | cons p ps ih =>
    intro acc
    rw [List.foldl_cons, List.filter_cons]
    by_cases h : f p <;> simp [h, ih]

theorem search_posts_eq_filter (query : String) (posts : List IndexEntry) :
    search_posts query posts = posts.filter (entryMatches (pyLower query)) := by
  simpa [search_posts] using
    foldl_append_filter (entryMatches (pyLower query)) posts []

theorem isSubstring_nil_left (l : List Char) : isSubstring [] l = true := by
  cases l <;> simp [isSubstring, List.isPrefixOf]

theorem isSubstring_iff_infix (q : List Char) :
    ∀ s : List Char, isSubstring q s = true ↔ q <:+: s := by
  intro s
  induction s with
  | nil => simp [isSubstring, List.isEmpty_iff, List.infix_nil]
  | cons c rest ih =>
    simp [isSubstring, Bool.or_eq_true, List.isPrefixOf_iff_prefix, ih,
      List.infix_cons_iff]

theorem entryMatches_iff (q : String) (post : IndexEntry) :
    entryMatches q post = true ↔
      (q.data <:+: (pyLower post.title).data ∨
       q.data <:+: (pyLower post.content).data ∨
       ∃ tag ∈ post.hashtags, q.data <:+: (pyLower tag).data) := by
  simp only [entryMatches, Bool.or_eq_true, isSubstring_iff_infix,
    List.any_eq_true]
  rw [or_assoc]

/-- C5: for every store state and every query, `search_posts` returns
exactly the index entries for which the case-folded query is a substring of
the entry's title, of its content text, or of at least one of its hashtags
(all compared case-folded), and it returns them in index (insertion) order:
the result is the in-order filter of the index by the match predicate, and
the match predicate holds precisely under the three substring conditions. -/
theorem search_posts_exact_matches (query : String) (posts : List IndexEntry) :
    search_posts query posts = posts.filter (entryMatches (pyLower query)) ∧
    ∀ post : IndexEntry,
      entryMatches (pyLower query) post = true ↔
        ((pyLower query).data <:+: (pyLower post.title).data ∨
         (pyLower query).data <:+: (pyLower post.content).data ∨
         ∃ tag ∈ post.hashtags, (pyLower query).data <:+: (pyLower tag).data) :=
  ⟨search_posts_eq_filter query posts,
   fun post => entryMatches_iff (pyLower query) post⟩

/-- C10: searching with the empty-string query returns every index entry in
index order (the empty string is a substring of every title, so the first
disjunct of the match condition always holds). -/
theorem search_posts_empty_query (posts : List IndexEntry) :
    search_posts "" posts = posts := by
  rw [search_posts_eq_filter]
  rw [List.filter_eq_self]
  intro post _
  have hq : (pyLower "").data = ([] : List Char) := rfl
  simp [entryMatches, hq, isSubstring_nil_left]

/-- C6: `get_recent_posts` returns at most `limit` entries, ordered by
timestamp descending (each later entry's timestamp is ≤ the earlier one's),
entries with equal timestamps keep their original insertion order (for every
timestamp value, the returned entries carrying it form a sublist of the
original entries carrying it, in order), and on three concrete entries with
timestamps T1 < T2 < T3 the call `recent 2` returns [T3, T2]. -/
theorem get_recent_posts_spec (limit : Nat) (posts : List IndexEntry) :
    (get_recent_posts limit posts).length ≤ limit
    ∧ List.Pairwise (fun a b => b.timestamp ≤ a.timestamp)
        (get_recent_posts limit posts)
    ∧ (∀ t : String,
        List.Sublist
          ((get_recent_posts limit posts).filter (fun e => e.timestamp == t))
          (posts.filter (fun e => e.timestamp == t)))
    ∧ get_recent_posts 2
        [⟨"instagram", "tech", "A", "a", [], "2025-01-01T09:00:00", "fa"⟩,
         ⟨"twitter", "tech", "B", "b", [], "2025-01-01T10:00:00", "fb"⟩,
         ⟨"linkedin", "tech", "C", "c", [], "2025-01-01T11:00:00", "fc"⟩]
      = [⟨"linkedin", "tech", "C", "c", [], "2025-01-01T11:00:00", "fc"⟩,
         ⟨"twitter", "tech", "B", "b", [], "2025-01-01T10:00:00", "fb"⟩] := by
  refine ⟨List.length_take_le limit _, ?_, ?_, by decide⟩
  · exact (List.Pairwise.sublist (List.take_sublist limit _)
      (sorted_sortByTimestampDesc posts)).imp (fun h => (tsGe_iff _ _).mp h)
  · intro t
    have h1 := List.Sublist.filter (fun e : IndexEntry => e.timestamp == t)
      (List.take_sublist limit (sortByTimestampDesc posts))
    rw [filter_sortByTimestampDesc] at h1
    exact h1

/-- C1 (amended): whenever the LLM call returns (so on the successful-parse
path and on the parse-failure fallback path), the post-processing of
src lines 296-297 makes `total_primary` equal to the length of
`primary_hashtags` and bounds it by the platform maximum; on the
call-failure (exception) path the result is exactly the un-post-processed
fallback dict, whose `primary_hashtags` length is still bounded by the
platform maximum but whose `total_primary` is the untruncated count of
title-derived tags. -/
theorem generate_hashtags_truncation_spec
    (respf errf : List Msg → String) (parseJson : String → Option HashtagData)
    (topic_data : TopicData) (content_data : ContentData)
    (seo_keywords : Option (List String)) :
    ((generate_hashtags (fun ms => Except.ok (respf ms)) parseJson topic_data
        content_data seo_keywords).total_primary
      = (generate_hashtags (fun ms => Except.ok (respf ms)) parseJson
          topic_data content_data seo_keywords).primary_hashtags.length
    ∧ (generate_hashtags (fun ms => Except.ok (respf ms)) parseJson topic_data
        content_data seo_keywords).total_primary
      ≤ hashtagPlatformLimit (pyLower content_data.platform))
    ∧ (generate_hashtags (fun ms => Except.error (errf ms)) parseJson
        topic_data content_data seo_keywords
      = generate_fallback_hashtags content_data.platform topic_data
    ∧ (generate_hashtags (fun ms => Except.error (errf ms)) parseJson
        topic_data content_data seo_keywords).primary_hashtags.length
      ≤ hashtagPlatformLimit (pyLower content_data.platform)
    ∧ (generate_hashtags (fun ms => Except.error (errf ms)) parseJson
        topic_data content_data seo_keywords).total_primary
      = ((pySplit (pyLower topic_data.title)).filter
          (fun word => word.length > 3)).length) := by
  refine ⟨⟨?_, ?_⟩, rfl, ?_, ?_⟩
  · cases hp : parseJson (respf (hashtagMessages topic_data content_data
      seo_keywords)) with
    | some hd => simp [generate_hashtags, hp]
    | none => simp [generate_hashtags, hp]
  · cases hp : parseJson (respf (hashtagMessages topic_data content_data
      seo_keywords)) with
    | some hd => simp [generate_hashtags, hp, List.length_take_le]
    | none => simp [generate_hashtags, hp, List.length_take_le]
  · simp [generate_hashtags, generate_fallback_hashtags, List.length_take_le]
  · simp [generate_hashtags, generate_fallback_hashtags, List.length_map]

/-- C1 (counterexample): with a topic title containing seven words longer
than three characters and platform twitter (maximum 5 tags), the
call-failure path returns `total_primary = 7` while `primary_hashtags` has
length 5, so the claimed invariant
`total_primary = primary_hashtags.length ≤ max` fails on that path. -/
theorem generate_hashtags_exception_cex :
    ((generate_hashtags (fun _ => Except.error "API failure") (fun _ => none)
        ⟨"Seven Wonderful Strategies Boost Social Media Growth", "h", "a", "q"⟩
        ⟨"c", "twitter", 0, true⟩ none).total_primary = 7
    ∧ (generate_hashtags (fun _ => Except.error "API failure") (fun _ => none)
        ⟨"Seven Wonderful Strategies Boost Social Media Growth", "h", "a", "q"⟩
        ⟨"c", "twitter", 0, true⟩ none).primary_hashtags.length = 5
    ∧ hashtagPlatformLimit (pyLower "twitter") = 5)
    ∧ ¬ ((generate_hashtags (fun _ => Except.error "API failure")
          (fun _ => none)
          ⟨"Seven Wonderful Strategies Boost Social Media Growth", "h", "a", "q"⟩
          ⟨"c", "twitter", 0, true⟩ none).total_primary
        = (generate_hashtags (fun _ => Except.error "API failure")
          (fun _ => none)
          ⟨"Seven Wonderful Strategies Boost Social Media Growth", "h", "a", "q"⟩
          ⟨"c", "twitter", 0, true⟩ none).primary_hashtags.length
      ∧ (generate_hashtags (fun _ => Except.error "API failure")
          (fun _ => none)
          ⟨"Seven Wonderful Strategies Boost Social Media Growth", "h", "a", "q"⟩
          ⟨"c", "twitter", 0, true⟩ none).total_primary
        ≤ hashtagPlatformLimit (pyLower "twitter")) := by
  decide

/-- C2: when every LLM invocation raises (whatever exception message the
client produces each time), `generate_complete_post` on
("fitness", "gym-goers", "motivational", "twitter") deterministically
returns a successful post — the orchestrator error branch is not taken —
with `ready_to_post = true`, fallback topic title
"Latest Fitness Insights", and `total_primary` (= 3) within twitter's
5-tag maximum; each generator absorbs the failure via its own fallback. -/
theorem generate_complete_post_all_failures_deterministic
    (errf : List Msg → String) (parseTopic : String → Option TopicData)
    (parseHashtags : String → Option HashtagData) (clock : Clock) :
    (generate_complete_post (fun ms => Except.error (errf ms)) parseTopic
        parseHashtags clock (Except.ok ()) "fitness" "gym-goers"
        "motivational" "twitter" none).ready_to_post = true
    ∧ generate_complete_post (fun ms => Except.error (errf ms)) parseTopic
        parseHashtags clock (Except.ok ()) "fitness" "gym-goers"
        "motivational" "twitter" none
      = PostResult.ok ((generate_complete_post (fun ms => Except.error (errf ms))
          parseTopic parseHashtags clock (Except.ok ()) "fitness" "gym-goers"
          "motivational" "twitter" none).getPost)
    ∧ ((generate_complete_post (fun ms => Except.error (errf ms)) parseTopic
        parseHashtags clock (Except.ok ()) "fitness" "gym-goers"
        "motivational" "twitter" none).getPost).topic.title
      = "Latest Fitness Insights"
    ∧ ((generate_complete_post (fun ms => Except.error (errf ms)) parseTopic
        parseHashtags clock (Except.ok ()) "fitness" "gym-goers"
        "motivational" "twitter" none).getPost).hashtags.total_primary = 3
    ∧ ((generate_complete_post (fun ms => Except.error (errf ms)) parseTopic
        parseHashtags clock (Except.ok ()) "fitness" "gym-goers"
        "motivational" "twitter" none).getPost).hashtags.total_primary
      ≤ hashtagPlatformLimit (pyLower "twitter") := by
  refine ⟨rfl, rfl, rfl, rfl, ?_⟩
  have h : ((generate_complete_post (fun ms => Except.error (errf ms))
      parseTopic parseHashtags clock (Except.ok ()) "fitness" "gym-goers"
      "motivational" "twitter" none).getPost).hashtags.total_primary = 3 := rfl
  rw [h]
  decide

/-- C3: on the success path `generate_content` reports `character_count`
equal to the exact length of the trimmed response text and `within_limit`
true exactly when that count is within the platform budget (instagram 2200,
linkedin 3000, twitter 280, facebook 63206, unknown platform 2200); on the
call-failure path the content is hook + generic continuation line +
engagement question with `character_count = 0` and `within_limit` forced
true. -/
theorem generate_content_spec (respf errf : List Msg → String)
    (topic_data : TopicData) (platform : String) :
    (generate_content (fun ms => Except.ok (respf ms)) topic_data
        platform).character_count
      = (pyStrip (respf (contentMessages topic_data platform))).length
    ∧ ((generate_content (fun ms => Except.ok (respf ms)) topic_data
        platform).within_limit = true
      ↔ (generate_content (fun ms => Except.ok (respf ms)) topic_data
          platform).character_count ≤ contentPlatformLimit (pyLower platform))
    ∧ generate_content (fun ms => Except.error (errf ms)) topic_data platform
      = { content := topic_data.hook ++ "\n\nStay tuned for more insights on "
            ++ topic_data.title ++ "!\n\n" ++ topic_data.engagement_question
          platform := platform
          character_count := 0
          within_limit := true }
    ∧ contentPlatformLimit "instagram" = 2200
    ∧ contentPlatformLimit "linkedin" = 3000
    ∧ contentPlatformLimit "twitter" = 280
    ∧ contentPlatformLimit "facebook" = 63206
    ∧ contentPlatformLimit "myspace" = 2200 := by
  refine ⟨rfl, ?_, rfl, by decide, by decide, by decide, by decide, by decide⟩
  have h : (generate_content (fun ms => Except.ok (respf ms)) topic_data
      platform).within_limit
    = decide ((generate_content (fun ms => Except.ok (respf ms)) topic_data
        platform).character_count ≤ contentPlatformLimit (pyLower platform)) :=
    rfl
  rw [h, decide_eq_true_eq]

/-- C7: the orchestrator catches any orchestrator-level failure at the top
level and returns the error dict with the message and a timestamp instead
of propagating, with `ready_to_post = false`; `ready_to_post` is false
exactly on that branch (when the side effects succeed the result always has
`ready_to_post = true`). -/
theorem generate_complete_post_error_branch (invoke : LLMInvoke)
    (parseTopic : String → Option TopicData)
    (parseHashtags : String → Option HashtagData) (clock : Clock)
    (niche audience tone platform : String) (seo_keywords : Option (List String))
    (e : String) :
    (generate_complete_post invoke parseTopic parseHashtags clock
        (Except.ok ()) niche audience tone platform seo_keywords).ready_to_post
      = true
    ∧ generate_complete_post invoke parseTopic parseHashtags clock
        (Except.error e) niche audience tone platform seo_keywords
      = PostResult.err e clock.iso
    ∧ (generate_complete_post invoke parseTopic parseHashtags clock
        (Except.error e) niche audience tone platform
        seo_keywords).ready_to_post = false :=
  ⟨rfl, rfl, rfl⟩

/-- C4 (code bug, evaluated at the failing input): for the post generated
at the concrete clock reading, `add_post` records
`file_path = posts/{post_id}.json` = "posts/ai_influencer_20250101_120000.json",
while `_save_post` writes only the `{platform}_{niche}_{yymmdd_HHMM}`-stem
files; the recorded path is not among the written paths, so the index entry
of a ready post names a file that was never created on disk. -/
theorem add_post_file_path_never_written :
    (generate_complete_post (fun _ => Except.error "API down") (fun _ => none)
        (fun _ => none) ⟨"20250101_120000", "2025-01-01T12:00:00", "250101_1200"⟩
        (Except.ok ()) "fitness" "gym-goers" "motivational" "twitter"
        none).ready_to_post = true
    ∧ (addProjection ((generate_complete_post (fun _ => Except.error "API down")
        (fun _ => none) (fun _ => none)
        ⟨"20250101_120000", "2025-01-01T12:00:00", "250101_1200"⟩
        (Except.ok ()) "fitness" "gym-goers" "motivational" "twitter"
        none).getPost)).file_path = "posts/ai_influencer_20250101_120000.json"
    ∧ savePostPaths ((generate_complete_post (fun _ => Except.error "API down")
        (fun _ => none) (fun _ => none)
        ⟨"20250101_120000", "2025-01-01T12:00:00", "250101_1200"⟩
        (Except.ok ()) "fitness" "gym-goers" "motivational" "twitter"
        none).getPost) "250101_1200"
      = ["posts/twitter_fitness_250101_1200.json",
         "posts/twitter_fitness_250101_1200.txt"]
    ∧ (addProjection ((generate_complete_post (fun _ => Except.error "API down")
        (fun _ => none) (fun _ => none)
        ⟨"20250101_120000", "2025-01-01T12:00:00", "250101_1200"⟩
        (Except.ok ()) "fitness" "gym-goers" "motivational" "twitter"
        none).getPost)).file_path
      ∉ savePostPaths ((generate_complete_post (fun _ => Except.error "API down")
        (fun _ => none) (fun _ => none)
        ⟨"20250101_120000", "2025-01-01T12:00:00", "250101_1200"⟩
        (Except.ok ()) "fitness" "gym-goers" "motivational" "twitter"
        none).getPost) "250101_1200" := by
  decide

/-- C8 (counterexample): a file that parses successfully but whose record
has no truthy `post_id` contributes no index entry, so the index is not
built from exactly the parseable post files: here `a.json` parses
(`isSome = true`) yet `load_posts` returns an empty index. -/
theorem load_posts_parseable_without_id_cex :
    ((fun _ => some noIdPost : String → Option CompletePost) "a.json").isSome
      = true
    ∧ load_posts ["a.json"] (fun _ => some noIdPost) = [] := by
  decide

/-- C8 (amended): a file that fails to parse is skipped (the source logs a
warning) and does not abort the load — the index built from the directory
with the failing file is the index built without it — and every parseable
`.json` file whose record has a truthy `post_id` still contributes its
index entry. -/
theorem load_posts_skip_and_contribute (fs1 fs2 : List String) (f : String)
    (parse : String → Option CompletePost) (g : String) (post : CompletePost)
    (hf : parse f = none) (hg : parse g = some post)
    (hid : post.post_id ≠ "") (hjson : pyEndsWith g ".json" = true) :
    load_posts (fs1 ++ f :: fs2) parse = load_posts (fs1 ++ fs2) parse
    ∧ load_posts [g] parse
      = [(post.post_id, loadProjection post ("posts/" ++ g))] := by
  constructor
  · simp only [load_posts, List.foldl_append, List.foldl_cons]
    congr 1
    cases hjf : pyEndsWith f ".json" <;> simp [hjf, hf]
  · simp [load_posts, hjson, hg, load_entry, hid, dictInsert]

/-- Witness for the C8 amended theorem at a concrete directory state. -/
theorem load_posts_skip_and_contribute_witness :
    (sampleParse "bad.json" = none
    ∧ sampleParse "good.json" = some samplePost
    ∧ samplePost.post_id ≠ ""
    ∧ pyEndsWith "good.json" ".json" = true)
    ∧ (load_posts (["good.json"] ++ "bad.json" :: ["notes.txt"]) sampleParse
        = load_posts (["good.json"] ++ ["notes.txt"]) sampleParse
    ∧ load_posts ["good.json"] sampleParse
        = [(samplePost.post_id, loadProjection samplePost
            ("posts/" ++ "good.json"))]) :=
  ⟨⟨by decide, by decide, by decide, by decide⟩,
   load_posts_skip_and_contribute ["good.json"] ["notes.txt"] "bad.json"
     sampleParse "good.json" samplePost (by decide) (by decide) (by decide)
     (by decide)⟩

/-- C9: serializing a post to the structured file form (`json.dump` of the
complete-post dict, which `json.load` reads back unchanged, so the parse
oracle returns the same record) and reloading it via the `load_posts` scan
yields an index entry whose key and whose platform, niche, title, content
text, hashtags, and timestamp all equal those of the entry produced by
`add_post` on the original in-memory record. -/
theorem save_load_round_trip (post : CompletePost) (filename : String)
    (hjson : pyEndsWith filename ".json" = true) :
    (load_posts [filename] (fun _ => some post)).map
        (fun kv => (kv.1, kv.2.core))
      = (add_post post []).map (fun kv => (kv.1, kv.2.core)) := by
  by_cases hid : post.post_id = ""
  · simp [load_posts, hjson, load_entry, hid, add_post, dictInsert]
  · simp [load_posts, hjson, load_entry, hid, add_post, dictInsert,
      loadProjection, addProjection, IndexEntry.core]

/-- Witness for the C9 round-trip theorem at a concrete post and file
name. -/
theorem save_load_round_trip_witness :
    pyEndsWith "instagram_technology_250101_0930.json" ".json" = true
    ∧ (load_posts ["instagram_technology_250101_0930.json"]
          (fun _ => some samplePost)).map (fun kv => (kv.1, kv.2.core))
      = (add_post samplePost []).map (fun kv => (kv.1, kv.2.core)) :=
  ⟨by decide,
   save_load_round_trip samplePost "instagram_technology_250101_0930.json"
     (by decide)⟩
